import Mathlib

/-!
Verification of the NVR-surveillance core against its specification.

The definitions below are a shallow embedding of the repository's Python
code: `BufferlessVideoCapture` (src/utils/camera_tools.py), the zone
containment helpers (src/utils/cv_utils.py), the notification predicates
(src/utils/telegram_bot.py), `calculate_frame_size`
(src/utils/setup_cleanup.py), and the per-camera cycle of the main loop
(src/main.py).  Frames are opaque and modelled by `Nat`; pixel and zone
coordinates are modelled by `ℚ` (Python performs true division and float
comparisons on small exact values here); times are seconds as `Int`.
-/

namespace NVR

/-- A frame is opaque to every property we verify. -/
abbrev Frame := Nat

/-! ## Single-slot frame channel

`BufferlessVideoCapture._reader` publishes a frame into `self.q` by first
draining one pending element (`if not self.q.empty(): self.q.get_nowait()`)
and then `self.q.put(frame)`.  `BufferlessVideoCapture.read` takes the head
with a timeout.  We model the queue contents as a `List Frame` and the two
operations as functions of that list.
-/

namespace Channel

/-- Embedding of the publish step of `_reader`: drain one pending element
if the queue is non-empty, then append the new frame. -/
def publish (q : List Frame) (f : Frame) : List Frame :=
  match q with
  | [] => [f]
  | _ :: t => t ++ [f]

/-- Embedding of `self.q.get(timeout=...)`: return the head frame and the
remaining queue, or `none` when the queue is empty (the timeout case). -/
def take (q : List Frame) : Option Frame × List Frame :=
  match q with
  | [] => (none, [])
  | h :: t => (some h, t)

/-- An operation on the channel: a producer publish or a consumer take. -/
inductive Op where
  | pub (f : Frame)
  | get
deriving DecidableEq

/-- One channel operation applied to the queue contents. -/
def step (q : List Frame) (op : Op) : List Frame :=
  match op with
  | .pub f => publish q f
  | .get => (take q).2

/-- The queue contents after a sequence of operations, starting empty. -/
def runOps (ops : List Op) : List Frame :=
  ops.foldl step []

/-- The queue contents after a sequence of publishes, starting empty. -/
def runPublishes (fs : List Frame) : List Frame :=
  fs.foldl publish []

theorem publish_of_short (q : List Frame) (f : Frame) (h : q.length ≤ 1) :
    publish q f = [f] := by
  match q with
  | [] => rfl
  | [a] => rfl
  | a :: b :: t => simp at h

theorem length_publish_le (q : List Frame) (f : Frame) (h : q.length ≤ 1) :
    (publish q f).length ≤ 1 := by
  rw [publish_of_short q f h]
  simp

theorem length_step_le (q : List Frame) (op : Op) (h : q.length ≤ 1) :
    (step q op).length ≤ 1 := by
  match op with
  | .pub f => exact length_publish_le q f h
  | .get =>
    match q with
    | [] => simp [step, take]
    | h' :: t =>
      simp only [step, take]
      simp only [List.length_cons] at h
      omega

theorem length_runOps_le (ops : List Op) : (runOps ops).length ≤ 1 := by
  suffices h : ∀ q : List Frame, q.length ≤ 1 → (ops.foldl step q).length ≤ 1 by
    exact h [] (by simp)
  induction ops with
  | nil => intro q hq; simpa using hq
  | cons op rest ih =>
    intro q hq
    exact ih (step q op) (length_step_le q op hq)

theorem foldl_publish_eq (fs : List Frame) :
    ∀ q : List Frame, q.length ≤ 1 →
      fs.foldl publish q = (match fs.getLast? with
        | none => q
        | some f => [f]) := by
  induction fs with
  | nil => intro q hq; simp
  | cons a rest ih =>
    intro q hq
    have hpub : publish q a = [a] := publish_of_short q a hq
    match rest with
    | [] => simp [hpub]
    | b :: t =>
      have := ih (publish q a) (by rw [hpub]; simp)
      simp only [List.foldl_cons] at *
      rw [this]
      rfl

theorem runPublishes_eq (fs : List Frame) :
    runPublishes fs = (match fs.getLast? with
      | none => ([] : List Frame)
      | some f => [f]) :=
  foldl_publish_eq fs [] (by simp)

theorem take_runPublishes (fs : List Frame) :
    (take (runPublishes fs)).1 = fs.getLast? := by
  rw [runPublishes_eq]
  match h : fs.getLast? with
  | none => rfl
  | some f => rfl

end Channel

/-- Claim C1: the channel queue holds at most one pending frame after any
sequence of publishes and takes starting from the empty queue; a publish on
a queue holding at most one frame always replaces its contents with the new
frame; and a single take after any sequence of publishes returns exactly
the most recently published frame, or `none` when nothing was published. -/
theorem channel_single_slot_spec :
    (∀ ops : List Channel.Op, (Channel.runOps ops).length ≤ 1) ∧
    (∀ (q : List Frame) (f : Frame), q.length ≤ 1 → Channel.publish q f = [f]) ∧
    (∀ fs : List Frame, (Channel.take (Channel.runPublishes fs)).1 = fs.getLast?) :=
  ⟨Channel.length_runOps_le, Channel.publish_of_short, Channel.take_runPublishes⟩

/-- Claim C1 witness: the replacement property of `publish` at a concrete
queue already holding an unconsumed frame. -/
theorem channel_single_slot_spec_witness :
    Channel.publish [5] 7 = [7] :=
  channel_single_slot_spec.2.1 [5] 7 (by decide)

/-! ## Stream reader lifecycle

`BufferlessVideoCapture._reader` runs the loop `{ret, frame = cap.read();
if not ret: break; drain-then-put; if self._stop: break}` on a daemon
thread; `stop_reader` sets `self._stop = True`; `__del__` calls
`self.cap.release()`.  We embed the reader as a small-step machine whose
program counter marks the atomic points of the loop, and interleave its
steps with the external stop request to obtain all concurrent schedules.
The state additionally counts publishes that happen after the stop flag
was raised and calls to the source handle's release.
-/

/-- Outcome of one `cap.read()` decode call. -/
inductive DecodeResult where
  | success (f : Frame)
  | failure
deriving DecidableEq

/-- Program counter of the `_reader` loop. -/
inductive ReaderPC where
  | atRead
  | atPublish (f : Frame)
  | atStopCheck
  | exited
deriving DecidableEq

/-- State of one `BufferlessVideoCapture` reader thread together with the
instrumentation needed for the stop-semantics claim. -/
structure ReaderState where
  pc : ReaderPC
  stopFlag : Bool
  q : List Frame
  pubsAfterStop : Nat
  released : Nat
deriving DecidableEq

/-- One atomic step of the `_reader` loop.  The decode result `d` is
consulted only at the `cap.read()` point.  Note the loop publishes the
decoded frame before it checks `self._stop`. -/
def readerStep (s : ReaderState) (d : DecodeResult) : ReaderState :=
  match s.pc with
  | .atRead =>
    match d with
    | .success f => { s with pc := .atPublish f }
    | .failure => { s with pc := .exited }
  | .atPublish f =>
    { s with
      pc := .atStopCheck
      q := Channel.publish s.q f
      pubsAfterStop := if s.stopFlag then s.pubsAfterStop + 1 else s.pubsAfterStop }
  | .atStopCheck =>
    { s with pc := if s.stopFlag then .exited else .atRead }
  | .exited => s

/-- Embedding of `BufferlessVideoCapture.stop_reader`: set the stop flag;
nothing else happens before the call returns. -/
def stop_reader (s : ReaderState) : ReaderState :=
  { s with stopFlag := true }

/-- Embedding of `BufferlessVideoCapture.__del__`: release the video
source handle (`self.cap.release()`). -/
def capRelease (s : ReaderState) : ReaderState :=
  { s with released := s.released + 1 }

/-- An action of the concurrent system: a reader-thread step with its
decode outcome, or the external stop request. -/
inductive SysAction where
  | reader (d : DecodeResult)
  | stopReq
deriving DecidableEq

/-- One system step. -/
def sysStep (s : ReaderState) (a : SysAction) : ReaderState :=
  match a with
  | .reader d => readerStep s d
  | .stopReq => stop_reader s

/-- Run a schedule of system actions. -/
def runSys (s : ReaderState) (as : List SysAction) : ReaderState :=
  as.foldl sysStep s

/-- The reader state at thread start: at the decode point, stop flag
clear, queue empty, no publishes after stop, handle not released. -/
def initReader : ReaderState :=
  ⟨.atRead, false, [], 0, 0⟩

/-- Publishes the reader can still perform once the stop flag is set:
one from `atRead` or `atPublish` (the in-flight decode), none later. -/
def pendingPubs : ReaderPC → Nat
  | .atRead => 1
  | .atPublish _ => 1
  | .atStopCheck => 0
  | .exited => 0

/-- Inductive invariant for the stop-semantics proof. -/
def ReaderInv (s : ReaderState) : Prop :=
  (s.stopFlag = false → s.pubsAfterStop = 0) ∧
  (s.stopFlag = true → s.pubsAfterStop + pendingPubs s.pc ≤ 1) ∧
  s.released = 0

theorem readerInv_init : ReaderInv initReader := by
  refine ⟨fun _ => rfl, fun h => ?_, rfl⟩
  simp [initReader] at h

theorem readerInv_step (s : ReaderState) (a : SysAction) (h : ReaderInv s) :
    ReaderInv (sysStep s a) := by
  obtain ⟨pc, sf, q, pubs, rel⟩ := s
  simp only [ReaderInv] at h ⊢
  rcases a with d | _
  · rcases pc with _ | f | _ | _ <;> rcases d with f' | _ <;> rcases sf <;>
      simp_all [sysStep, readerStep, pendingPubs]
  · rcases sf <;> rcases pc with _ | f | _ | _ <;>
      simp_all [sysStep, stop_reader, pendingPubs]

theorem readerInv_runSys (as : List SysAction) (s : ReaderState)
    (h : ReaderInv s) : ReaderInv (runSys s as) := by
  induction as generalizing s with
  | nil => exact h
  | cons a rest ih => exact ih (sysStep s a) (readerInv_step s a h)

/-- Claim C3 counterexample: a schedule in which the stop request arrives
while a decode is in flight (the reader sits between `cap.read()` and
`q.put`).  After `stop_reader` has returned, the reader still publishes
the decoded frame — `pubsAfterStop = 1`, not `0` — and no release of the
source handle has happened (`released = 0`), since neither `stop_reader`
nor the reader loop calls `cap.release()`; only `__del__` does. -/
theorem reader_stop_counterexample :
    (runSys initReader
      [.reader (.success 7), .stopReq, .reader .failure,
       .reader .failure]).pubsAfterStop = 1 ∧
    (runSys initReader
      [.reader (.success 7), .stopReq, .reader .failure,
       .reader .failure]).released = 0 ∧
    (runSys initReader
      [.reader (.success 7), .stopReq, .reader .failure,
       .reader .failure]).pc = .exited := by
  decide

/-- Claim C3 (amended): after a stop request, the reader publishes at most
one further frame (the in-flight decode) and then exits; under any
schedule of reader steps and stop requests the reader itself never
releases the video source handle; the handle is instead released exactly
once per invocation of the destructor `__del__`. -/
theorem reader_stop_bounded_publish :
    (∀ as : List SysAction, (runSys initReader as).pubsAfterStop ≤ 1) ∧
    (∀ as : List SysAction, (runSys initReader as).released = 0) ∧
    (∀ s : ReaderState, (capRelease s).released = s.released + 1) := by
  refine ⟨fun as => ?_, fun as => ?_, fun s => rfl⟩
  · have h := readerInv_runSys as initReader readerInv_init
    match hs : (runSys initReader as).stopFlag with
    | false => simp [h.1 hs]
    | true =>
      have := h.2.1 hs
      omega
  · exact (readerInv_runSys as initReader readerInv_init).2.2

/-! ## Camera session state and `read`

The consumer-side per-camera state of `BufferlessVideoCapture`
(src/utils/camera_tools.py, `__init__`): `detections_in_a_row`,
`queue_timeouts_counter` and `last_detection_dt`.  Times are seconds as
`Int`; `datetime(2000, 1, 1, 1, 1, 1)` is the corresponding epoch
constant.
-/

/-- The session-level mutable fields of a `BufferlessVideoCapture`. -/
structure CameraState where
  detections_in_a_row : Nat
  queue_timeouts_counter : Nat
  last_detection_dt : Int
deriving DecidableEq

/-- `datetime(2000, 1, 1, 1, 1, 1)` as Unix seconds: the far-past initial
value of `last_detection_dt`. -/
def initial_last_detection_dt : Int := 946688461

/-- The session state right after `__init__`. -/
def initCameraState : CameraState :=
  ⟨0, 0, initial_last_detection_dt⟩

namespace BufferlessVideoCapture

/-- Embedding of `BufferlessVideoCapture.read`: `takeResult` is the
outcome of `self.q.get(timeout=0.75)`.  On `queue.Empty` the method
increments `queue_timeouts_counter` and returns `None`; on success it
returns the frame and touches no counter. -/
def read (s : CameraState) (takeResult : Option Frame) :
    Option Frame × CameraState :=
  match takeResult with
  | none =>
    (none, { s with queue_timeouts_counter := s.queue_timeouts_counter + 1 })
  | some frame => (some frame, s)

end BufferlessVideoCapture

/-- Claim C2 counterexample: a session whose timeout counter is `5`
obtains a frame; `read` returns the frame but leaves the counter at `5`
instead of resetting it to `0` — the code never resets
`queue_timeouts_counter`. -/
theorem read_success_no_reset_counterexample :
    BufferlessVideoCapture.read ⟨3, 5, 946688461⟩ (some 42) =
      (some 42, ⟨3, 5, 946688461⟩) ∧ (5 : Nat) ≠ 0 := by
  decide

/-- Claim C2 (amended): on success `read` returns the frame and leaves
`queue_timeouts_counter` unchanged (it is never reset); on timeout it
increments the counter by exactly 1 and returns `none` rather than
raising. -/
theorem read_timeout_accounting :
    (∀ (s : CameraState) (f : Frame),
      BufferlessVideoCapture.read s (some f) = (some f, s)) ∧
    (∀ s : CameraState,
      BufferlessVideoCapture.read s none =
        (none, { s with
          queue_timeouts_counter := s.queue_timeouts_counter + 1 })) :=
  ⟨fun _ _ => rfl, fun _ => rfl⟩

/-! ## Failure reporting (src/utils/telegram_bot.py) -/

/-- Embedding of `check_and_report_camera_failure`: a report is sent iff
the session's `queue_timeouts_counter` equals the configured
`timeout_count_before_message` and the configured verbosity is at least
the call's `verbose_level`.  Returns whether a report was sent. -/
def check_and_report_camera_failure (s : CameraState) (verbose_level : Nat)
    (timeout_count_before_message runtime_verbose_level : Nat) : Bool :=
  decide (s.queue_timeouts_counter = timeout_count_before_message ∧
    runtime_verbose_level ≥ verbose_level)

/-- Embedding of `send_frame_condition`: true iff the time since the last
notification strictly exceeds `bot_frame_timeout` seconds and the
detection streak is at least `min_detections_in_a_row`. -/
def send_frame_condition (time_diff : Int) (camera_vc : CameraState)
    (bot_frame_timeout : Int) (min_detections_in_a_row : Nat) : Bool :=
  if time_diff > bot_frame_timeout ∧
      camera_vc.detections_in_a_row ≥ min_detections_in_a_row then
    true
  else
    false

/-- Claim C5: the notification predicate is true iff the streak is at
least the minimum and the elapsed time strictly exceeds the interval; it
is false whenever the streak is below the minimum, and false whenever the
interval has not elapsed. -/
theorem send_frame_condition_spec (time_diff : Int) (s : CameraState)
    (bot_frame_timeout : Int) (min_detections_in_a_row : Nat) :
    (send_frame_condition time_diff s bot_frame_timeout
        min_detections_in_a_row = true ↔
      s.detections_in_a_row ≥ min_detections_in_a_row ∧
        time_diff > bot_frame_timeout) ∧
    (s.detections_in_a_row < min_detections_in_a_row →
      send_frame_condition time_diff s bot_frame_timeout
        min_detections_in_a_row = false) ∧
    (time_diff ≤ bot_frame_timeout →
      send_frame_condition time_diff s bot_frame_timeout
        min_detections_in_a_row = false) := by
  refine ⟨?_, fun hlt => ?_, fun hle => ?_⟩ <;>
    simp [send_frame_condition, and_comm] <;> omega

/-- Claim C5 witness: streak 2 with minimum 3 and elapsed 100 > 60 does
not notify. -/
theorem send_frame_condition_spec_witness :
    send_frame_condition 100 ⟨2, 0, 946688461⟩ 60 3 = false :=
  (send_frame_condition_spec 100 ⟨2, 0, 946688461⟩ 60 3).2.1 (by decide)

/-! ## Consecutive read timeouts and the failure-report threshold

In src/main.py lines 49-53, a cycle in which `read` returns `None` first
increments the timeout counter (inside `read`) and then calls
`check_and_report_camera_failure(bot, camera_vc, 2, config)`.
-/

/-- One main-loop cycle in which the read times out: the counter is
bumped by `read` and the failure check runs at `verbose_level = 2`.
Returns the new state and whether a failure report was sent. -/
def timeoutCycle (timeout_count_before_message runtime_verbose_level : Nat)
    (s : CameraState) : CameraState × Bool :=
  let s' := (BufferlessVideoCapture.read s none).2
  (s', check_and_report_camera_failure s' 2 timeout_count_before_message
    runtime_verbose_level)

/-- Number of failure reports sent over `k` consecutive timed-out cycles
starting from state `s`. -/
def reportsAfterTimeouts (timeout_count_before_message
    runtime_verbose_level : Nat) : Nat → CameraState → Nat
  | 0, _ => 0
  | k + 1, s =>
    let p := timeoutCycle timeout_count_before_message runtime_verbose_level s
    (if p.2 then 1 else 0) +
      reportsAfterTimeouts timeout_count_before_message runtime_verbose_level
        k p.1

theorem timeoutCycle_report_iff (N v : Nat) (s : CameraState) (hv : v ≥ 2) :
    (timeoutCycle N v s).2 = true ↔ s.queue_timeouts_counter + 1 = N := by
  simp [timeoutCycle, check_and_report_camera_failure,
    BufferlessVideoCapture.read, hv]

theorem timeoutCycle_counter (N v : Nat) (s : CameraState) :
    (timeoutCycle N v s).1.queue_timeouts_counter =
      s.queue_timeouts_counter + 1 := rfl

theorem reportsAfterTimeouts_eq (N v : Nat) (hv : v ≥ 2) (k : Nat) :
    ∀ s : CameraState,
      reportsAfterTimeouts N v k s =
        if s.queue_timeouts_counter < N ∧ N ≤ s.queue_timeouts_counter + k
        then 1 else 0 := by
  induction k with
  | zero =>
    intro s
    simp only [reportsAfterTimeouts]
    split <;> omega
  | succ k ih =>
    intro s
    simp only [reportsAfterTimeouts]
    rw [ih, timeoutCycle_counter]
    rcases h : (timeoutCycle N v s).2 with _ | _
    · have hne : s.queue_timeouts_counter + 1 ≠ N := by
        intro hc
        have hx := (timeoutCycle_report_iff N v s hv).2 hc
        rw [h] at hx
        cases hx
      simp only [h, Bool.false_eq_true, if_false]
      split <;> split <;> omega
    · have heq : s.queue_timeouts_counter + 1 = N :=
        (timeoutCycle_report_iff N v s hv).1 h
      simp only [h, if_true]
      split <;> split <;> omega

/-- Claim C4: with configured verbosity at least 2 and threshold `N ≥ 1`,
a timed-out cycle emits a failure report iff the counter after the
increment equals `N` exactly (an equality check, not greater-or-equal);
hence from a fresh session `N` consecutive timeouts emit exactly one
report, and an `(N+1)`-th consecutive timeout emits none. -/
theorem failure_report_exact_threshold (N v : Nat) (hv : v ≥ 2)
    (hN : 1 ≤ N) :
    (∀ s : CameraState,
      (timeoutCycle N v s).2 = true ↔ s.queue_timeouts_counter + 1 = N) ∧
    reportsAfterTimeouts N v N initCameraState = 1 ∧
    reportsAfterTimeouts N v (N + 1) initCameraState = 1 := by
  refine ⟨fun s => timeoutCycle_report_iff N v s hv, ?_, ?_⟩ <;>
    rw [reportsAfterTimeouts_eq N v hv] <;>
    simp only [initCameraState] <;> split <;> omega

/-- Claim C4 witness: threshold 5 at verbosity 2 — five consecutive
timeouts emit exactly one report, six still only one. -/
theorem failure_report_exact_threshold_witness :
    ((5 : Nat) ≥ 2 ∧ (1 : Nat) ≤ 5) ∧
    ((timeoutCycle 5 2 ⟨0, 4, 946688461⟩).2 = true ↔ 4 + 1 = 5) ∧
    reportsAfterTimeouts 5 2 5 initCameraState = 1 ∧
    reportsAfterTimeouts 5 2 6 initCameraState = 1 :=
  ⟨⟨by decide, by decide⟩,
    (failure_report_exact_threshold 5 2 (by decide) (by decide)).1
      ⟨0, 4, 946688461⟩,
    (failure_report_exact_threshold 5 2 (by decide) (by decide)).2.1,
    (failure_report_exact_threshold 5 2 (by decide) (by decide)).2.2⟩

/-! ## Zone containment (src/utils/cv_utils.py and src/main.py lines 76-81)

Coordinates are rationals: Python computes `(x1 + x2) / 2` with true
division and compares floats; all values involved in these claims are
small exact decimals and integers, which `ℚ` models exactly.
-/

/-- Embedding of `midpoint_bottom`: the horizontal midpoint paired with
the larger of the two vertical bounds. -/
def midpoint_bottom (x1 y1 x2 y2 : ℚ) : ℚ × ℚ :=
  ((x1 + x2) / 2, max y1 y2)

/-- Embedding of `is_point_in_rectangle`: Python's chained comparison
`x1 < x < x2 and y1 < y < y2`. -/
def is_point_in_rectangle (point : ℚ × ℚ) (rectangle : ℚ × ℚ × ℚ × ℚ) :
    Bool :=
  decide (rectangle.1 < point.1 ∧ point.1 < rectangle.2.2.1 ∧
    rectangle.2.1 < point.2 ∧ point.2 < rectangle.2.2.2)

/-- A normalized zone: (x1, y1, x2, y2) fractions of the frame size. -/
abbrev Zone := ℚ × ℚ × ℚ × ℚ

/-- The scaled zone rectangle of src/main.py line 78:
`(x1 * frame_width, y1 * frame_height, x2 * frame_width, y2 * frame_height)`. -/
def rectangle_coordinates (z : Zone) (frame_width frame_height : ℚ) : Zone :=
  (z.1 * frame_width, z.2.1 * frame_height, z.2.2.1 * frame_width,
    z.2.2.2 * frame_height)

/-- The zones loop of src/main.py lines 76-81: the detection with corner
coordinates `(x1, y1, x2, y2)` is suppressed (its `object_not_in_zones`
flag cleared) iff its `midpoint_bottom` anchor lies in some scaled zone. -/
def suppressedByZones (x1 y1 x2 y2 : ℚ) (zones : List Zone)
    (frame_width frame_height : ℚ) : Bool :=
  zones.any fun z =>
    is_point_in_rectangle (midpoint_bottom x1 y1 x2 y2)
      (rectangle_coordinates z frame_width frame_height)

/-- Claim C6: a detection with box `(x1, y1, x2, y2)` is suppressed iff
its anchor point `((x1 + x2) / 2, max y1 y2)` lies strictly inside some
zone rectangle obtained by scaling the zone's normalized coordinates by
the frame width and height. -/
theorem zone_suppression_spec (x1 y1 x2 y2 : ℚ) (zones : List Zone)
    (w h : ℚ) :
    suppressedByZones x1 y1 x2 y2 zones w h = true ↔
      ∃ z ∈ zones,
        z.1 * w < (x1 + x2) / 2 ∧ (x1 + x2) / 2 < z.2.2.1 * w ∧
        z.2.1 * h < max y1 y2 ∧ max y1 y2 < z.2.2.2 * h := by
  simp [suppressedByZones, is_point_in_rectangle, midpoint_bottom,
    rectangle_coordinates]

/-- Claim C7: containment is boundary-exclusive: a point is inside a
rectangle iff `left < x < right` and `top < y < bottom` strictly; the
corner `(left, top)` itself is never inside; and `(left + ε, top + ε)` is
inside for every `0 < ε` smaller than both side lengths. -/
theorem point_in_rectangle_open_semantics :
    (∀ x y x1 y1 x2 y2 : ℚ,
      is_point_in_rectangle (x, y) (x1, y1, x2, y2) = true ↔
        x1 < x ∧ x < x2 ∧ y1 < y ∧ y < y2) ∧
    (∀ x1 y1 x2 y2 : ℚ,
      is_point_in_rectangle (x1, y1) (x1, y1, x2, y2) = false) ∧
    (∀ x1 y1 x2 y2 ε : ℚ, 0 < ε → ε < x2 - x1 → ε < y2 - y1 →
      is_point_in_rectangle (x1 + ε, y1 + ε) (x1, y1, x2, y2) = true) := by
  refine ⟨fun x y x1 y1 x2 y2 => by simp [is_point_in_rectangle],
    fun x1 y1 x2 y2 => by simp [is_point_in_rectangle],
    fun x1 y1 x2 y2 ε h0 hx hy => ?_⟩
  simp only [is_point_in_rectangle, decide_eq_true_eq]
  refine ⟨by linarith, by linarith, by linarith, by linarith⟩

/-- Claim C7 witness: for the unit square, the corner and an interior
point just off the corner. -/
theorem point_in_rectangle_open_semantics_witness :
    is_point_in_rectangle (0 + 1/2, 0 + 1/2) (0, 0, 1, 1) = true :=
  point_in_rectangle_open_semantics.2.2 0 0 1 1 (1/2) (by norm_num)
    (by norm_num) (by norm_num)

/-- Claim C8 counterexample: for zone `(0.1, 0.1, 0.9, 0.9)` on a
100×100 frame the scaled rectangle is `(10, 10, 90, 90)`, and the anchor
`(50, 95)` has `95 ≥ 90`, so it is NOT inside the zone and a detection
with that anchor (e.g. box `(40, 90, 60, 95)`) is NOT suppressed —
contrary to the claimed "inside → suppressed". -/
theorem scenario_anchor_50_95_counterexample :
    rectangle_coordinates (1/10, 1/10, 9/10, 9/10) 100 100 =
      (10, 10, 90, 90) ∧
    midpoint_bottom 40 90 60 95 = (50, 95) ∧
    is_point_in_rectangle (50, 95) (10, 10, 90, 90) = false ∧
    suppressedByZones 40 90 60 95 [(1/10, 1/10, 9/10, 9/10)] 100 100 =
      false := by
  norm_num [suppressedByZones, is_point_in_rectangle, midpoint_bottom,
    rectangle_coordinates, Prod.ext_iff, max_def]

/-- Claim C8 (amended): for zone `(0.1, 0.1, 0.9, 0.9)` on a 100×100
frame, the anchor `(50, 95)` lies outside the scaled zone (its y
coordinate 95 is not below the zone bottom 90) and is therefore not
suppressed, and the anchor `(5, 5)` is outside and not suppressed. -/
theorem scenario_zone_100px :
    midpoint_bottom 40 90 60 95 = (50, 95) ∧
    ¬(95 : ℚ) < 90 ∧
    suppressedByZones 40 90 60 95 [(1/10, 1/10, 9/10, 9/10)] 100 100 =
      false ∧
    midpoint_bottom 0 5 10 3 = (5, 5) ∧
    suppressedByZones 0 5 10 3 [(1/10, 1/10, 9/10, 9/10)] 100 100 =
      false := by
  norm_num [suppressedByZones, is_point_in_rectangle, midpoint_bottom,
    rectangle_coordinates, Prod.ext_iff, max_def]

/-! ## One per-camera cycle of the main loop (src/main.py lines 49-101) -/

/-- A model detection box: class id, confidence, and the integer corner
coordinates `box.xyxy[0].astype(int)` (held as rationals, since the
anchor computation divides by 2). -/
structure Box where
  cls : Nat
  conf : ℚ
  x1 : ℚ
  y1 : ℚ
  x2 : ℚ
  y2 : ℚ
deriving DecidableEq

/-- The static detection configuration used inside a cycle. -/
structure DetectionConfig where
  detection_classes : List Nat
  confidence : ℚ
  zones : List Zone
  frame_width : ℚ
  frame_height : ℚ
  bot_frame_timeout : Int
  min_detections_in_a_row : Nat
  timeout_count_before_message : Nat
  runtime_verbose_level : Nat
deriving DecidableEq

/-- src/main.py lines 70-85: a box contributes to `any_detection` iff its
class is a detection class, its confidence is above the threshold, and
its anchor is in no skip zone. -/
def qualifyingBox (cfg : DetectionConfig) (b : Box) : Bool :=
  cfg.detection_classes.contains b.cls &&
    decide (b.conf > cfg.confidence) &&
    !suppressedByZones b.x1 b.y1 b.x2 b.y2 cfg.zones cfg.frame_width
      cfg.frame_height

/-- The `any_detection` flag after the result-processing loop. -/
def any_detection (cfg : DetectionConfig) (boxes : List Box) : Bool :=
  boxes.any (qualifyingBox cfg)

/-- One per-camera iteration of the main loop, src/main.py lines 49-101.
`readResult` is the outcome of `camera_vc.read()` (`none` models the
`frame is None` timeout branch, `some boxes` a frame whose detector
output is `boxes`); `now` is `datetime.now()` in seconds.  Returns the
new session state, whether a camera-failure report was sent, and whether
a detection frame was sent. -/
def loopCycle (cfg : DetectionConfig) (s : CameraState)
    (readResult : Option (List Box)) (now : Int) :
    CameraState × Bool × Bool :=
  match readResult with
  | none =>
    let s1 := (BufferlessVideoCapture.read s none).2
    (s1,
      check_and_report_camera_failure s1 2 cfg.timeout_count_before_message
        cfg.runtime_verbose_level,
      false)
  | some boxes =>
    if any_detection cfg boxes then
      let time_diff := now - s.last_detection_dt
      let s1 := { s with detections_in_a_row := s.detections_in_a_row + 1 }
      if send_frame_condition time_diff s1 cfg.bot_frame_timeout
          cfg.min_detections_in_a_row then
        ({ s1 with last_detection_dt := now }, false, true)
      else
        (s1, false, false)
    else
      ({ s with detections_in_a_row := 0 }, false, false)

/-- Claim C9: the streak reset is asymmetric — a cycle whose read times
out leaves `detections_in_a_row` unchanged, while a cycle that obtains a
frame with zero qualifying detections sets it to 0. -/
theorem streak_reset_asymmetry (cfg : DetectionConfig) (s : CameraState)
    (now : Int) :
    ((loopCycle cfg s none now).1.detections_in_a_row =
      s.detections_in_a_row) ∧
    (∀ boxes : List Box, any_detection cfg boxes = false →
      (loopCycle cfg s (some boxes) now).1.detections_in_a_row = 0) := by
  constructor
  · rfl
  · intro boxes hno
    simp [loopCycle, hno]

/-- Claim C9 witness: a camera with a running streak of 4 keeps it across
a timed-out read, and zeroes it on an empty frame. -/
theorem streak_reset_asymmetry_witness :
    (loopCycle ⟨[0], 1/2, [], 640, 480, 60, 3, 5, 2⟩ ⟨4, 0, 946688461⟩
      none 946688461).1.detections_in_a_row = 4 ∧
    (loopCycle ⟨[0], 1/2, [], 640, 480, 60, 3, 5, 2⟩ ⟨4, 0, 946688461⟩
      (some []) 946688461).1.detections_in_a_row = 0 :=
  ⟨(streak_reset_asymmetry ⟨[0], 1/2, [], 640, 480, 60, 3, 5, 2⟩
      ⟨4, 0, 946688461⟩ 946688461).1,
    (streak_reset_asymmetry ⟨[0], 1/2, [], 640, 480, 60, 3, 5, 2⟩
      ⟨4, 0, 946688461⟩ 946688461).2 [] rfl⟩

/-! ## Frame-size computation (src/utils/setup_cleanup.py lines 101-116) -/

/-- A frame's pixel shape: `shape[0]` is the row count, `shape[1]` the
column count. -/
structure FrameShape where
  rows : Nat
  cols : Nat
deriving DecidableEq

/-- Embedding of `calculate_frame_size`.  The function calls
`camera_vc.read()` and immediately dereferences `frame.shape`; when the
read timed out (`None`), that dereference raises an uncaught
`AttributeError`, modelled by the `none` result.  On success it returns
`(imgsz, int(shape[0] * imgsz / shape[1]))` (`int()` truncates the
nonnegative quotient, i.e. Nat division). -/
def calculate_frame_size (readResult : Option FrameShape) (imgsz : Nat) :
    Option (Nat × Nat) :=
  match readResult with
  | none => none
  | some shape => some (imgsz, shape.rows * imgsz / shape.cols)

/-- Claim C10: `calculate_frame_size` produces a width/height pair iff
the initial read succeeded; a timed-out first read makes it fail instead
of returning a size, and on success the pair is the configured `imgsz`
and the proportionally scaled, truncated height. -/
theorem calculate_frame_size_requires_frame :
    (∀ imgsz : Nat, calculate_frame_size none imgsz = none) ∧
    (∀ (shape : FrameShape) (imgsz : Nat),
      calculate_frame_size (some shape) imgsz =
        some (imgsz, shape.rows * imgsz / shape.cols)) ∧
    (∀ (r : Option FrameShape) (imgsz : Nat),
      (calculate_frame_size r imgsz).isSome = r.isSome) := by
  refine ⟨fun _ => rfl, fun _ _ => rfl, fun r imgsz => ?_⟩
  match r with
  | none => rfl
  | some shape => rfl

end NVR
